import Mathlib

/-!
Verification of the two Conan recipe scripts of aos_core_lib_cpp:
`docker/conan/conanfile.py` (class `AosCoreLibCpp`) and
`docker/conan/pkcs11provider-1.0.py` (class `PKCS11Provider`).

Each recipe method is straight-line Python that performs a fixed sequence of
calls into the Conan framework (`self.requires`, `self.run`, git helpers,
Meson helpers, option assignments).  We embed every method as a total Lean
function returning the list of external actions it performs, in source order,
parameterised by the folder strings the framework supplies
(`self.recipe_folder`, `self.source_folder`).  Class-level attributes become
plain constants.
-/

namespace AosConan

/-- External action performed by a recipe method: a dependency declaration,
a shell command run via `self.run`, an option assignment, a git operation,
or one of the Conan helper-object calls appearing in the sources. -/
inductive Action : Type
  | requires (ref : String)
  | toolRequires (ref : String)
  | buildRequires (ref : String)
  | runCmd (cmd : String) (cwd : String)
  | setOption (pkg : String) (opt : String) (value : Bool)
  | gitClone (url : String) (args : List String) (target : String)
  | gitCheckout (revision : String)
  | basicLayout
  | virtualBuildEnvGenerate
  | pkgConfigDepsGenerate
  | mesonToolchainGenerate
  | mesonConfigure
  | mesonBuild
  | mesonInstall
  deriving DecidableEq, Repr

/-- Embedding of `os.path.join` for the two-argument POSIX case used in
`conanfile.py`: an absolute second component replaces the first, otherwise
the components are joined, inserting a separator unless one is present. -/
def osPathJoin (a b : String) : String :=
  if b.startsWith "/" then b
  else if a == "" || a.endsWith "/" then a ++ b
  else a ++ "/" ++ b

namespace AosCoreLibCpp

/-- Class attribute `settings` of `AosCoreLibCpp`. -/
def settings : List String := ["os", "compiler", "build_type", "arch"]

/-- Class attribute `generators` of `AosCoreLibCpp`. -/
def generators : List String := ["CMakeToolchain", "CMakeDeps"]

/-- Local variable `pkcs11path = os.path.join(self.recipe_folder, "pkcs11provider-1.0.py")`. -/
def pkcs11path (recipe_folder : String) : String :=
  osPathJoin recipe_folder "pkcs11provider-1.0.py"

/-- The f-string passed to `self.run` in `AosCoreLibCpp.requirements`. -/
def exportCommand (recipe_folder : String) : String :=
  "conan export " ++ pkcs11path recipe_folder ++ " --user user --channel stable"

/-- Trace of `AosCoreLibCpp.requirements(self)`. -/
def requirements (recipe_folder : String) : List Action :=
  [ .requires "grpc/1.54.3"
  , .requires "gtest/1.14.0"
  , .requires "libcurl/8.8.0"
  , .requires "openssl/3.2.1"
  , .requires "poco/1.13.2"
  , .runCmd (exportCommand recipe_folder) recipe_folder
  , .requires "pkcs11provider/1.0@user/stable" ]

/-- Trace of `AosCoreLibCpp.build_requirements(self)`. -/
def build_requirements : List Action :=
  [ .toolRequires "grpc/1.54.3"
  , .toolRequires "gtest/1.14.0"
  , .toolRequires "protobuf/3.21.12" ]

/-- Trace of `AosCoreLibCpp.configure(self)`. -/
def configure : List Action :=
  [ .setOption "openssl" "no_dso" false
  , .setOption "openssl" "shared" true ]

/-- The traces of every method defined on class `AosCoreLibCpp`. -/
def allMethods (recipe_folder : String) : List (List Action) :=
  [requirements recipe_folder, build_requirements, configure]

end AosCoreLibCpp

namespace PKCS11Provider

/-- Class attribute `name` of `PKCS11Provider`. -/
def name : String := "pkcs11provider"

/-- Class attribute `branch` of `PKCS11Provider`. -/
def branch : String := "main"

/-- Class attribute `revision` of `PKCS11Provider`. -/
def revision : String := "v1.0"

/-- Class attribute `version` of `PKCS11Provider`. -/
def version : String := "1.0"

/-- Class attribute `settings` of `PKCS11Provider`. -/
def settings : List String := ["os", "compiler", "build_type", "arch"]

/-- Trace of `PKCS11Provider.requirements(self)`. -/
def requirements : List Action := [.requires "openssl/3.2.1"]

/-- Trace of `PKCS11Provider.configure(self)`. -/
def configure : List Action := [.setOption "openssl" "shared" true]

/-- Trace of `PKCS11Provider.build_requirements(self)`. -/
def build_requirements : List Action := [.buildRequires "meson/0.64.1"]

/-- Trace of `PKCS11Provider.layout(self)`. -/
def layout : List Action := [.basicLayout]

/-- Trace of `PKCS11Provider.source(self)`: `Git(self)` is constructed, then
`git.clone(url, args=['--branch', self.branch], target=self.source_folder)`
and `git.checkout(self.revision)` run in that order. -/
def source (source_folder : String) : List Action :=
  [ .gitClone "https://github.com/latchset/pkcs11-provider.git"
      ["--branch", branch] source_folder
  , .gitCheckout revision ]

/-- Trace of `PKCS11Provider.generate(self)`. -/
def generate : List Action :=
  [.virtualBuildEnvGenerate, .pkgConfigDepsGenerate, .mesonToolchainGenerate]

/-- Trace of `PKCS11Provider.build(self)`. -/
def build : List Action := [.mesonConfigure, .mesonBuild]

/-- Trace of `PKCS11Provider.package(self)`. -/
def package : List Action := [.mesonInstall]

/-- The traces of every method defined on class `PKCS11Provider`. -/
def allMethods (source_folder : String) : List (List Action) :=
  [ requirements, configure, build_requirements, layout
  , source source_folder, generate, build, package ]

end PKCS11Provider

/-- Every action performed by any method of either recipe class. -/
def allActions (recipe_folder source_folder : String) : List Action :=
  (AosCoreLibCpp.allMethods recipe_folder).flatten
    ++ (PKCS11Provider.allMethods source_folder).flatten

/-- Whether an action is a git operation. -/
def Action.isGitOp : Action → Bool
  | .gitClone _ _ _ => true
  | .gitCheckout _ => true
  | _ => false

/-- Whether an action is a `self.run` shell invocation. -/
def Action.isRun : Action → Bool
  | .runCmd _ _ => true
  | _ => false

/-- Whether an action is an option assignment. -/
def Action.isSetOption : Action → Bool
  | .setOption _ _ _ => true
  | _ => false

/-- The dependency reference of a `self.requires` action, if any. -/
def Action.requiresRef : Action → Option String
  | .requires r => some r
  | _ => none

/-- The dependency reference of a `self.tool_requires` action, if any. -/
def Action.toolRequiresRef : Action → Option String
  | .toolRequires r => some r
  | _ => none

/-- The remote URL of a git clone action, if any. -/
def Action.cloneUrl : Action → Option String
  | .gitClone url _ _ => some url
  | _ => none

/-- Whether the action is the `requires` declaration of the nested
pkcs11provider recipe reference. -/
def Action.isPkcsRequire : Action → Bool
  | .requires r => r == "pkcs11provider/1.0@user/stable"
  | _ => false

/-- Split a character list at every occurrence of the separator. -/
def splitChar (sep : Char) : List Char → List (List Char)
  | [] => [[]]
  | c :: rest =>
    match splitChar sep rest with
    | [] => if c == sep then [[], []] else [[c]]
    | h :: t => if c == sep then [] :: h :: t else (c :: h) :: t

/-- Split a string at every occurrence of a separator character. -/
def splitOnChar (sep : Char) (s : String) : List String :=
  (splitChar sep s.data).map String.mk

/-- The version component of a Conan reference `name/version[@user/channel]`. -/
def refVersion (ref : String) : String :=
  String.mk ((((splitChar '/' ref.data).getD 1 []).takeWhile (fun c => c != '@')))

/-- A version string is pinned when it is a nonempty dotted numeric literal:
no range brackets, wildcards or floating aliases. -/
def isPinnedVersion (v : String) : Bool :=
  !(v == "") && v.data.all (fun c => c.isDigit || c == '.')

/-- A fully qualified Conan recipe reference `name/version@user/channel`. -/
structure RecipeRef : Type where
  name : String
  version : String
  user : String
  channel : String
  deriving DecidableEq, Repr

/-- Parse `name/version@user/channel` into its four components. -/
def parseRecipeRef (s : String) : Option RecipeRef :=
  match splitOnChar '@' s with
  | [nv, uc] =>
    match splitOnChar '/' nv, splitOnChar '/' uc with
    | [n, v], [u, c] => some ⟨n, v, u, c⟩
    | _, _ => none
  | _ => none

/-- Execute a method trace against an oracle telling which external actions
fail: actions run in order, and the first failing action aborts execution,
its error value passed through unchanged (the recipes install no handler). -/
def execTrace (fails : Action → Bool) : List Action → Except Action (List Action)
  | [] => .ok []
  | a :: rest =>
    if fails a then .error a
    else
      match execTrace fails rest with
      | .ok done => .ok (a :: done)
      | .error e => .error e

/-- Executing any trace either completes it whole or stops at the first
failing action, which is reported unchanged. -/
theorem execTrace_eq_find (fails : Action → Bool) (tr : List Action) :
    execTrace fails tr =
      match tr.find? fails with
      | some a => Except.error a
      | none => Except.ok tr := by
  induction tr with
  | nil => rfl
  | cons a rest ih =>
    by_cases h : fails a = true
    · simp [execTrace, List.find?, h]
    · simp only [Bool.not_eq_true] at h
      simp [execTrace, List.find?, h, ih]
      cases hf : rest.find? fails <;> simp [hf]

/-- C1: `PKCS11Provider.source` contacts exactly one external git remote, the
hosted repository at latchset/pkcs11-provider: it first clones that remote at
branch "main" into the source folder, then checks out revision "v1.0", in that
order, and its trace consists of those two git operations and nothing else. -/
theorem source_clones_single_remote_then_checkout (sf : String) :
    PKCS11Provider.source sf =
      [ Action.gitClone "https://github.com/latchset/pkcs11-provider.git"
          ["--branch", "main"] sf
      , Action.gitCheckout "v1.0" ] ∧
    (PKCS11Provider.source sf).filterMap Action.cloneUrl =
      ["https://github.com/latchset/pkcs11-provider.git"] ∧
    (PKCS11Provider.source sf).filter Action.isGitOp = PKCS11Provider.source sf :=
  ⟨rfl, rfl, rfl⟩

/-- C2: `AosCoreLibCpp.requirements` declares exactly the references
grpc/1.54.3, gtest/1.14.0, libcurl/8.8.0, openssl/3.2.1, poco/1.13.2 and
pkcs11provider/1.0@user/stable, `AosCoreLibCpp.build_requirements` declares
exactly the tool references grpc/1.54.3, gtest/1.14.0 and protobuf/3.21.12,
and every declared version string is pinned (a dotted numeric literal, never a
range or floating reference). -/
theorem pinned_requirements_exact (rf : String) :
    (AosCoreLibCpp.requirements rf).filterMap Action.requiresRef =
      [ "grpc/1.54.3", "gtest/1.14.0", "libcurl/8.8.0", "openssl/3.2.1"
      , "poco/1.13.2", "pkcs11provider/1.0@user/stable" ] ∧
    AosCoreLibCpp.build_requirements.filterMap Action.toolRequiresRef =
      ["grpc/1.54.3", "gtest/1.14.0", "protobuf/3.21.12"] ∧
    (((AosCoreLibCpp.requirements rf).filterMap Action.requiresRef
        ++ AosCoreLibCpp.build_requirements.filterMap Action.toolRequiresRef).all
      (fun r => isPinnedVersion (refVersion r))) = true :=
  ⟨rfl, rfl, rfl⟩

/-- C3: the two recipes interact only as a nested recipe declaration:
`AosCoreLibCpp.requirements` runs `conan export` on the pkcs11provider recipe
path inside the recipe folder and immediately afterwards requires the exported
reference; across every method of both classes this is the only shell command
run and the only occurrence of the exported reference. -/
theorem interaction_only_via_export_and_require (rf sf : String) :
    AosCoreLibCpp.requirements rf =
      [ Action.requires "grpc/1.54.3"
      , Action.requires "gtest/1.14.0"
      , Action.requires "libcurl/8.8.0"
      , Action.requires "openssl/3.2.1"
      , Action.requires "poco/1.13.2"
      , Action.runCmd (AosCoreLibCpp.exportCommand rf) rf
      , Action.requires "pkcs11provider/1.0@user/stable" ] ∧
    AosCoreLibCpp.exportCommand rf =
      "conan export " ++ AosCoreLibCpp.pkcs11path rf ++ " --user user --channel stable" ∧
    (allActions rf sf).filter Action.isRun =
      [Action.runCmd (AosCoreLibCpp.exportCommand rf) rf] ∧
    (allActions rf sf).filter Action.isPkcsRequire =
      [Action.requires "pkcs11provider/1.0@user/stable"] :=
  ⟨rfl, rfl, rfl, rfl⟩

/-- C4: `AosCoreLibCpp.configure` sets exactly two build options and nothing
else: the openssl option no_dso to False and the openssl option shared to
True; every action of its trace is an option assignment. -/
theorem configure_sets_exactly_two_openssl_options :
    AosCoreLibCpp.configure =
      [ Action.setOption "openssl" "no_dso" false
      , Action.setOption "openssl" "shared" true ] ∧
    AosCoreLibCpp.configure.all Action.isSetOption = true :=
  ⟨rfl, rfl⟩

/-- C5: the fetched pkcs11-provider project is built and installed exclusively
through Meson's standard calls: `PKCS11Provider.build` is exactly Meson
configure then Meson build, `PKCS11Provider.package` is exactly Meson install,
and no shell command (patching or extra build step) occurs anywhere in the
source, build or package traces. -/
theorem build_and_package_use_meson_only (sf : String) :
    PKCS11Provider.build = [Action.mesonConfigure, Action.mesonBuild] ∧
    PKCS11Provider.package = [Action.mesonInstall] ∧
    (PKCS11Provider.source sf ++ PKCS11Provider.build
      ++ PKCS11Provider.package).filter Action.isRun = [] :=
  ⟨rfl, rfl, rfl⟩

/-- C6: neither recipe defines any error handling: for every method trace of
both classes and any oracle of failing external actions, execution stops at
the first failing action and reports it unchanged — no failure is caught,
transformed or retried. -/
theorem failures_propagate_uncaught (fails : Action → Bool) (rf sf : String) :
    ∀ tr ∈ AosCoreLibCpp.allMethods rf ++ PKCS11Provider.allMethods sf,
      execTrace fails tr =
        match tr.find? fails with
        | some a => Except.error a
        | none => Except.ok tr := by
  intro tr _
  exact execTrace_eq_find fails tr

/-- Witness for C6: a failing clone inside `PKCS11Provider.source` surfaces as
that very clone action. -/
theorem failures_propagate_uncaught_witness :
    execTrace Action.isGitOp (PKCS11Provider.source "/src") =
      Except.error (Action.gitClone "https://github.com/latchset/pkcs11-provider.git"
        ["--branch", "main"] "/src") := by
  have h := failures_propagate_uncaught Action.isGitOp "/recipes" "/src"
    (PKCS11Provider.source "/src") (by decide)
  exact h.trans rfl

/-- C7: execution is single-shot with no retry: within any one invocation of
any method of either recipe class, each external action appears at most once
in the method's trace. -/
theorem each_action_at_most_once (rf sf : String) :
    ∀ tr ∈ AosCoreLibCpp.allMethods rf ++ PKCS11Provider.allMethods sf, tr.Nodup := by
  intro tr h
  simp only [AosCoreLibCpp.allMethods, PKCS11Provider.allMethods, List.mem_append,
    List.mem_cons, List.not_mem_nil, or_false] at h
  rcases h with (rfl | rfl | rfl) | (rfl | rfl | rfl | rfl | rfl | rfl | rfl | rfl) <;>
    simp [AosCoreLibCpp.requirements, AosCoreLibCpp.build_requirements,
      AosCoreLibCpp.configure, PKCS11Provider.requirements, PKCS11Provider.configure,
      PKCS11Provider.build_requirements, PKCS11Provider.layout, PKCS11Provider.source,
      PKCS11Provider.generate, PKCS11Provider.build, PKCS11Provider.package]

/-- Witness for C7: the requirements trace at a concrete recipe folder has no
duplicate action. -/
theorem each_action_at_most_once_witness :
    (AosCoreLibCpp.requirements "/recipes").Nodup :=
  each_action_at_most_once "/recipes" "/src" (AosCoreLibCpp.requirements "/recipes")
    (List.mem_append_left _ (List.mem_cons_self _ _))

/-- C8: every method of both recipe classes is straight-line: each trace is a
fixed finite list of the stated length, executing any method with every
external call terminating succeeds whole, and in particular the declared
clone/checkout/build/install sequence completes. -/
theorem methods_terminate_straight_line (rf sf : String) :
    ((AosCoreLibCpp.allMethods rf ++ PKCS11Provider.allMethods sf).map List.length =
      [7, 3, 2, 1, 1, 1, 1, 2, 3, 2, 1]) ∧
    ((AosCoreLibCpp.allMethods rf ++ PKCS11Provider.allMethods sf).map
        (execTrace (fun _ => false)) =
      (AosCoreLibCpp.allMethods rf ++ PKCS11Provider.allMethods sf).map Except.ok) ∧
    execTrace (fun _ => false)
        (PKCS11Provider.source sf ++ PKCS11Provider.build ++ PKCS11Provider.package) =
      Except.ok (PKCS11Provider.source sf ++ PKCS11Provider.build
        ++ PKCS11Provider.package) :=
  ⟨rfl, rfl, rfl⟩

/-- C9: the nested recipe reference is consistent across the two files: the
reference required by `AosCoreLibCpp.requirements` parses to exactly the name
and version declared by the `PKCS11Provider` class, and its user and channel
are exactly the ones passed to the `conan export` command. -/
theorem nested_reference_consistent (rf : String) :
    ∃ r : RecipeRef,
      parseRecipeRef "pkcs11provider/1.0@user/stable" = some r ∧
      Action.requires "pkcs11provider/1.0@user/stable" ∈ AosCoreLibCpp.requirements rf ∧
      r.name = PKCS11Provider.name ∧
      r.version = PKCS11Provider.version ∧
      AosCoreLibCpp.exportCommand rf =
        "conan export " ++ AosCoreLibCpp.pkcs11path rf ++ " --user " ++ r.user
          ++ " --channel " ++ r.channel := by
  refine ⟨⟨"pkcs11provider", "1.0", "user", "stable"⟩, by decide, ?_, rfl, rfl, ?_⟩
  · simp [AosCoreLibCpp.requirements]
  · simp [AosCoreLibCpp.exportCommand, String.append_assoc]

/-- C10: the two recipes agree on OpenSSL: both require the identical pinned
reference openssl/3.2.1, and both configure methods set the openssl option
shared to True. -/
theorem openssl_agreement (rf : String) :
    Action.requires "openssl/3.2.1" ∈ AosCoreLibCpp.requirements rf ∧
    Action.requires "openssl/3.2.1" ∈ PKCS11Provider.requirements ∧
    Action.setOption "openssl" "shared" true ∈ AosCoreLibCpp.configure ∧
    Action.setOption "openssl" "shared" true ∈ PKCS11Provider.configure :=
  ⟨by simp [AosCoreLibCpp.requirements], by decide, by decide, by decide⟩

end AosConan
